import Mathlib

/-!
Verification of the `hst_notebooks` repository: a shallow embedding of the
notebook cells that the specification's claims are about, together with
theorems settling each claim.

The repository is a collection of Jupyter notebooks.  The embedded fragments
are:

* the HASP flux-scaling notebook: median scale factors, the rescale-and-write
  loop, the SNR-ratio cell, the `mastDownload` cleanup cell, the co-add
  filename, and the overall cell sequence;
* the sky-matching notebook: the `shift_drz.txt` nan check, the catalog
  writes, and the FITS-keyword reads;
* the synphot notebooks: the guarded tar extraction;
* the ACS reduction notebook: the `crds bestrefs` / `calacs.e` invocations.

Floating-point arrays are modelled as lists of rationals (exact arithmetic),
strings as Lean `String`s or lists of characters where character-level
reasoning is needed.
-/

/-! ## numpy.median and the flux-scaling model (HASP FluxScaling notebook)

The notebook computes `np.median` of each input spectrum's FLUX column,
forms `scale_factor = [1.0, med_010/med_020, med_010/med_030]`, and writes
each spectrum with FLUX multiplied elementwise by its scale factor.
-/

/-- Model of `np.median` on a (flattened) array, over exact rationals:
sort ascending; for odd length take the middle element, for even length the
mean of the two middle elements. -/
def npMedian (l : List ℚ) : ℚ :=
  if l.length % 2 = 1 then
    (List.insertionSort (· ≤ ·) l).getD (l.length / 2) 0
  else
    ((List.insertionSort (· ≤ ·) l).getD (l.length / 2 - 1) 0
      + (List.insertionSort (· ≤ ·) l).getD (l.length / 2) 0) / 2

theorem insertionSort_map_mul (c : ℚ) (hc : 0 ≤ c) (l : List ℚ) :
    List.insertionSort (· ≤ ·) (l.map (fun x => c * x))
      = (List.insertionSort (· ≤ ·) l).map (fun x => c * x) := by
  apply List.eq_of_perm_of_sorted (r := (· ≤ ·))
    ((List.perm_insertionSort _ _).trans
      (((List.perm_insertionSort (· ≤ ·) l).map _).symm))
  · exact List.sorted_insertionSort _ _
  · exact List.Pairwise.map _ (fun a b h => mul_le_mul_of_nonneg_left h hc)
      (List.sorted_insertionSort (· ≤ ·) l)

theorem getD_map_mul (c : ℚ) (l : List ℚ) (n : ℕ) :
    (l.map (fun x => c * x)).getD n 0 = c * l.getD n 0 := by
  rw [List.getD_eq_getElem?_getD, List.getD_eq_getElem?_getD, List.getElem?_map]
  cases l[n]? <;> simp

/-- Scaling every element of a list by a nonnegative constant scales its
`np.median` by the same constant. -/
theorem npMedian_map_mul (c : ℚ) (hc : 0 ≤ c) (l : List ℚ) :
    npMedian (l.map (fun x => c * x)) = c * npMedian l := by
  rw [npMedian, npMedian, List.length_map, insertionSort_map_mul c hc l]
  split_ifs with h
  · rw [getD_map_mul]
  · rw [getD_map_mul, getD_map_mul]; ring

/-- The three input spectrum files of the flux-scaling investigation
(source: `files = ["o5jy03010_x1d.fits", "o5jy03020_x1d.fits", "o5jy03030_x1d.fits"]`). -/
def files : List String :=
  ["o5jy03010_x1d.fits", "o5jy03020_x1d.fits", "o5jy03030_x1d.fits"]

/-- The FLUX columns of the three input files, in the order of `files`. -/
def inputFlux (flux_010 flux_020 flux_030 : List ℚ) : List (List ℚ) :=
  [flux_010, flux_020, flux_030]

/-- Source: `scale_factor = [1.0, med_spec_010 / med_spec_020, med_spec_010 / med_spec_030]`
with `med_spec_0x0 = np.median(flux_0x0)`. -/
def scale_factor (flux_010 flux_020 flux_030 : List ℚ) : List ℚ :=
  [1, npMedian flux_010 / npMedian flux_020, npMedian flux_010 / npMedian flux_030]

/-- The FLUX column written for file `i` by the rescale loop
(source: `g191_data["FLUX"] = flux * scale_factor[i]` followed by
`g191_hdul.writeto(f"{stis_scaled_data_dir}/{filename}", overwrite=True)`). -/
def rescaledFlux (flux_010 flux_020 flux_030 : List ℚ) (i : ℕ) : List ℚ :=
  ((inputFlux flux_010 flux_020 flux_030).getD i []).map
    (fun x => (scale_factor flux_010 flux_020 flux_030).getD i 0 * x)

/-- The (filename, FLUX column) pairs written to the scaled data directory. -/
def writtenScaledFiles (flux_010 flux_020 flux_030 : List ℚ) : List (String × List ℚ) :=
  (List.range files.length).map
    (fun i => (files.getD i "", rescaledFlux flux_010 flux_020 flux_030 i))

/-- C1: the rescale loop writes, for each input file `i`, a FLUX column equal to
the original FLUX column multiplied elementwise by `scale_factor[i]`; the first
(brightest, under the stated hypotheses) spectrum is written unchanged; and,
with positive medians and the first spectrum's median maximal, every scaled
spectrum has `np.median` equal to the median of the brightest spectrum. -/
theorem hasp_rescale_flux_median_spec (flux_010 flux_020 flux_030 : List ℚ)
    (h10 : 0 < npMedian flux_010) (h20 : 0 < npMedian flux_020)
    (h30 : 0 < npMedian flux_030)
    (hb20 : npMedian flux_020 ≤ npMedian flux_010)
    (hb30 : npMedian flux_030 ≤ npMedian flux_010) :
    (∀ i j : ℕ, (rescaledFlux flux_010 flux_020 flux_030 i).getD j 0
        = (scale_factor flux_010 flux_020 flux_030).getD i 0
          * ((inputFlux flux_010 flux_020 flux_030).getD i []).getD j 0)
    ∧ rescaledFlux flux_010 flux_020 flux_030 0 = flux_010
    ∧ npMedian flux_010
        = max (npMedian flux_010) (max (npMedian flux_020) (npMedian flux_030))
    ∧ (∀ i, i < 3 →
        npMedian (rescaledFlux flux_010 flux_020 flux_030 i) = npMedian flux_010) := by
  have h0 : rescaledFlux flux_010 flux_020 flux_030 0 = flux_010 := by
    simp [rescaledFlux, inputFlux, scale_factor]
  refine ⟨fun i j => getD_map_mul _ _ _, h0,
    (max_eq_left (max_le hb20 hb30)).symm, ?_⟩
  intro i hi
  interval_cases i
  · rw [h0]
  · show npMedian (flux_020.map
      (fun x => npMedian flux_010 / npMedian flux_020 * x)) = npMedian flux_010
    rw [npMedian_map_mul _ (div_nonneg h10.le h20.le)]
    exact div_mul_cancel₀ _ h20.ne'
  · show npMedian (flux_030.map
      (fun x => npMedian flux_010 / npMedian flux_030 * x)) = npMedian flux_010
    rw [npMedian_map_mul _ (div_nonneg h10.le h30.le)]
    exact div_mul_cancel₀ _ h30.ne'

/-- C1 witness: the rescaling theorem instantiated at concrete spectra with
medians 3, 1, 2. -/
theorem hasp_rescale_flux_median_spec_witness :
    (0 < npMedian [(3 : ℚ)] ∧ 0 < npMedian [(1 : ℚ)] ∧ 0 < npMedian [(2 : ℚ)]
      ∧ npMedian [(1 : ℚ)] ≤ npMedian [(3 : ℚ)]
      ∧ npMedian [(2 : ℚ)] ≤ npMedian [(3 : ℚ)])
    ∧ ((∀ i j : ℕ, (rescaledFlux [3] [1] [2] i).getD j 0
        = (scale_factor [3] [1] [2]).getD i 0
          * ((inputFlux [3] [1] [2]).getD i []).getD j 0)
      ∧ rescaledFlux [3] [1] [2] 0 = [3]
      ∧ npMedian [(3 : ℚ)]
          = max (npMedian [(3 : ℚ)]) (max (npMedian [(1 : ℚ)]) (npMedian [(2 : ℚ)]))
      ∧ (∀ i, i < 3 → npMedian (rescaledFlux [3] [1] [2] i) = npMedian [(3 : ℚ)])) :=
  ⟨⟨by decide, by decide, by decide, by decide, by decide⟩,
    hasp_rescale_flux_median_spec [3] [1] [2]
      (by decide) (by decide) (by decide) (by decide) (by decide)⟩

/-! ## Co-add product filename (HASP FluxScaling notebook, claim C7)

Source: `coadd = "hst_8435_stis_g191b2b_e140m_o5jy_cspec.fits"`.
The external naming convention is
`hst_<programID>_<instrument>_<target>_<grating>_<obset>_cspec.fits`.
-/

/-- The co-add product filename the notebook consumes. -/
def coadd : String := "hst_8435_stis_g191b2b_e140m_o5jy_cspec.fits"

/-- Split a character list on a separator character, Python `str.split(sep)`
semantics for a single-character separator. -/
def splitOnChar (c : Char) : List Char → List (List Char)
  | [] => [[]]
  | x :: xs =>
    if x = c then [] :: splitOnChar c xs
    else
      match splitOnChar c xs with
      | [] => [[x]]
      | h :: t => (x :: h) :: t

/-- The underscore-separated fields of the co-add filename. -/
def coaddFields : List (List Char) := splitOnChar '_' coadd.toList

/-- Spec-side constructor for the external co-add naming convention
`hst_<programID>_<instrument>_<target>_<grating>_<obset>_cspec.fits`. -/
def coaddNameOfFields (programID instrument target grating obset : String) : String :=
  "hst_" ++ programID ++ "_" ++ instrument ++ "_" ++ target ++ "_" ++ grating
    ++ "_" ++ obset ++ "_cspec.fits"

/-- C7: the co-add filename consumed by the flux-scaling notebook conforms to
the convention: splitting on underscores yields exactly `hst`, the program ID
`8435`, the instrument `stis`, the target `g191b2b`, the grating `e140m`, the
obset `o5jy`, and the `cspec.fits` suffix; equivalently the filename is the
convention's constructor applied to those fields. -/
theorem hasp_coadd_filename_convention :
    coaddFields = ["hst".toList, "8435".toList, "stis".toList, "g191b2b".toList,
      "e140m".toList, "o5jy".toList, "cspec.fits".toList]
    ∧ coadd = coaddNameOfFields "8435" "stis" "g191b2b" "e140m" "o5jy" := by
  constructor
  · decide
  · rfl

/-! ## SNR-comparison cell (HASP FluxScaling notebook, claim C10)

Source:
```
SNR_scaled_nonzero = SNR_scaled[np.nonzero(SNR)]
SNR_nonzero = SNR[np.nonzero(SNR)]
SNR_scaled = SNR_scaled_nonzero / SNR_nonzero
w_scaled_nonzero = w_scaled[np.nonzero(SNR)]
```
-/

/-- Model of `np.nonzero` on a 1-D array: the indices whose entry is nonzero. -/
def np_nonzero (l : List ℚ) : List ℕ :=
  (List.range l.length).filter (fun i => decide (l.getD i 0 ≠ 0))

/-- Model of numpy fancy indexing `a[idx]` for an index array `idx`. -/
def fancyIndex (l : List ℚ) (idx : List ℕ) : List ℚ :=
  idx.map (fun i => l.getD i 0)

/-- Source: `SNR_nonzero = SNR[np.nonzero(SNR)]`. -/
def SNR_nonzero (SNR : List ℚ) : List ℚ := fancyIndex SNR (np_nonzero SNR)

/-- Source: `SNR_scaled_nonzero = SNR_scaled[np.nonzero(SNR)]`. -/
def SNR_scaled_nonzero (SNR_scaled SNR : List ℚ) : List ℚ :=
  fancyIndex SNR_scaled (np_nonzero SNR)

/-- Source: `SNR_scaled = SNR_scaled_nonzero / SNR_nonzero` (elementwise). -/
def SNR_ratio (SNR_scaled SNR : List ℚ) : List ℚ :=
  List.zipWith (· / ·) (SNR_scaled_nonzero SNR_scaled SNR) (SNR_nonzero SNR)

/-- Source: `w_scaled_nonzero = w_scaled[np.nonzero(SNR)]`. -/
def w_scaled_nonzero (w_scaled SNR : List ℚ) : List ℚ :=
  fancyIndex w_scaled (np_nonzero SNR)

/-- C10: the SNR ratio's divisor array is built by filtering with
`np.nonzero(SNR)` first, so every selected index has a nonzero original SNR
and no element of the divisor `SNR_nonzero` is zero. -/
theorem hasp_snr_ratio_divisor_nonzero (SNR : List ℚ) :
    (∀ i ∈ np_nonzero SNR, SNR.getD i 0 ≠ 0)
    ∧ (∀ q ∈ SNR_nonzero SNR, q ≠ 0) := by
  have hidx : ∀ i ∈ np_nonzero SNR, SNR.getD i 0 ≠ 0 := by
    intro i hi
    have := (List.mem_filter.mp hi).2
    exact of_decide_eq_true this
  refine ⟨hidx, ?_⟩
  intro q hq
  obtain ⟨i, hi, rfl⟩ := List.mem_map.mp hq
  exact hidx i hi

/-- C10 witness: the divisor-nonzero theorem at the concrete array `[0, 2]`,
whose nonzero indices are `[1]`. -/
theorem hasp_snr_ratio_divisor_nonzero_witness :
    SNR_ratio [5, 3] [0, 2] = [3 / 2]
    ∧ (∀ i ∈ np_nonzero [(0 : ℚ), 2], List.getD [(0 : ℚ), 2] i 0 ≠ 0)
    ∧ (∀ q ∈ SNR_nonzero [(0 : ℚ), 2], q ≠ 0) :=
  ⟨by norm_num [SNR_ratio, SNR_scaled_nonzero, SNR_nonzero, fancyIndex, np_nonzero,
      List.range, List.range.loop],
    (hasp_snr_ratio_divisor_nonzero [0, 2]).1,
    (hasp_snr_ratio_divisor_nonzero [0, 2]).2⟩

/-! ## Shift-file nan check (sky-matching notebook, claim C4)

Source:
```
with open('shift_drz.txt', 'r') as shift:
    for line_number, line in enumerate(shift, start=1):
        if "nan" in line:
            raise ValueError(f'nan found in line {line_number} in shift file')
```
-/

/-- Model of the Python substring test `needle in hay` on strings. -/
def pyInB (needle hay : String) : Bool := decide (needle.toList <:+: hay.toList)

/-- The message of the `ValueError` raised for (1-based) line number `n`. -/
def nanErrMsg (n : ℕ) : String :=
  "nan found in line " ++ toString n ++ " in shift file"

/-- The check loop, starting at line number `n`: raise on the first line
containing `"nan"`, otherwise fall through. -/
def nanCheckFrom (n : ℕ) : List String → Except String Unit
  | [] => Except.ok ()
  | line :: rest =>
    if pyInB "nan" line then Except.error (nanErrMsg n)
    else nanCheckFrom (n + 1) rest

/-- The alignment-check cell applied to the lines of `shift_drz.txt`
(`enumerate(shift, start=1)` numbers lines from 1). -/
def nanCheck (lines : List String) : Except String Unit := nanCheckFrom 1 lines

theorem nanCheckFrom_ok_iff (ls : List String) :
    ∀ n, (nanCheckFrom n ls = Except.ok () ↔ ∀ l ∈ ls, pyInB "nan" l = false) := by
  induction ls with
  | nil => intro n; simp [nanCheckFrom]
  | cons a rest ih =>
    intro n
    by_cases h : pyInB "nan" a
    · simp [nanCheckFrom, h]
    · simp only [Bool.not_eq_true] at h
      simp [nanCheckFrom, h, ih (n + 1)]

theorem nanCheckFrom_first_error (ls : List String) :
    ∀ n k, (hk : k < ls.length) → pyInB "nan" (ls.get ⟨k, hk⟩) = true →
      (∀ j, (hj : j < k) → pyInB "nan" (ls.get ⟨j, hj.trans hk⟩) = false) →
      nanCheckFrom n ls = Except.error (nanErrMsg (n + k)) := by
  induction ls with
  | nil => intro n k hk; exact absurd hk (by simp)
  | cons a rest ih =>
    intro n k hk hnan hfirst
    cases k with
    | zero =>
      simp only [List.get] at hnan
      simp [nanCheckFrom, hnan]
    | succ k' =>
      have ha : pyInB "nan" a = false := hfirst 0 (Nat.succ_pos k')
      have hk' : k' < rest.length := by
        simpa [Nat.succ_lt_succ_iff] using hk
      have hrec := ih (n + 1) k' hk'
        (by simpa using hnan)
        (fun j hj => by
          have := hfirst (j + 1) (Nat.succ_lt_succ hj)
          simpa using this)
      rw [show n + (k' + 1) = n + 1 + k' by omega]
      simp [nanCheckFrom, ha, hrec]

/-- C4: the alignment check raises a `ValueError` if and only if some line of
the shift file contains the substring `"nan"`; when it raises, the error
message reports the 1-based number of the first such line; when no line
contains `"nan"` the check completes normally. -/
theorem skymatch_nan_check_spec (lines : List String) :
    (nanCheck lines = Except.ok () ↔ ∀ l ∈ lines, pyInB "nan" l = false)
    ∧ ((∃ e, nanCheck lines = Except.error e) ↔ ∃ l ∈ lines, pyInB "nan" l = true)
    ∧ (∀ k, (hk : k < lines.length) → pyInB "nan" (lines.get ⟨k, hk⟩) = true →
        (∀ j, (hj : j < k) → pyInB "nan" (lines.get ⟨j, hj.trans hk⟩) = false) →
        nanCheck lines = Except.error (nanErrMsg (k + 1))) := by
  have hok : nanCheck lines = Except.ok () ↔ ∀ l ∈ lines, pyInB "nan" l = false :=
    nanCheckFrom_ok_iff lines 1
  refine ⟨hok, ⟨?_, ?_⟩, ?_⟩
  · rintro ⟨e, he⟩
    by_contra hnone
    push_neg at hnone
    have : ∀ l ∈ lines, pyInB "nan" l = false := by
      intro l hl
      simpa [Bool.not_eq_true] using hnone l hl
    rw [hok.mpr this] at he
    exact Except.noConfusion he
  · rintro ⟨l, hl, hnan⟩
    cases hres : nanCheck lines with
    | ok u =>
      cases u
      have := hok.mp hres l hl
      rw [this] at hnan
      exact Bool.noConfusion hnan
    | error e => exact ⟨e, rfl⟩
  · intro k hk hnan hfirst
    have := nanCheckFrom_first_error lines 1 k hk hnan hfirst
    rw [show 1 + k = k + 1 by omega] at this
    exact this

/-- C4 witness: the check at the concrete shift file `["ok line", "x nan y"]`
raises with the message naming line 2. -/
theorem skymatch_nan_check_spec_witness :
    pyInB "nan" (List.get ["ok line", "x nan y"] ⟨1, by decide⟩) = true
    ∧ nanCheck ["ok line", "x nan y"]
        = Except.error "nan found in line 2 in shift file" :=
  ⟨by decide,
    (skymatch_nan_check_spec ["ok line", "x nan y"]).2.2 1 (by decide) (by decide)
      (by decide)⟩

/-! ## mastDownload cleanup cell (HASP FluxScaling notebook, claim C3)

Source:
```
try:
    mast_path = f"{stis_data_dir}/mastDownload/HST/"
    if not os.path.exists(mast_path):
        print(f"Directory {mast_path} doesn't exist.")
    obs_id_dirs = os.listdir(mast_path)
    for obs_id in obs_id_dirs:
        obs_id_path = os.path.join(mast_path, obs_id)
        stis_files = glob.glob(obs_id_path + "/*fits")
        for file in stis_files:
            shutil.move(file, stis_data_dir / Path(file).name)
    if os.path.exists(mast_path):
        shutil.rmtree(f"{stis_data_dir}/mastDownload/")
except Exception as e:
    print(f"An error occurred: {e}")
```

Exceptions are modelled by Python exception classes; `except Exception`
catches exactly the subclasses of `Exception` (so not `KeyboardInterrupt`,
`SystemExit`).  Filesystem operations can only raise `OSError`-family
exceptions, which are subclasses of `Exception`.
-/

/-- The Python exception classes relevant to the cleanup cell. -/
inductive PyClass where
  | fileNotFoundError
  | oSError
  | keyboardInterrupt
  | systemExit
deriving DecidableEq

/-- Whether a class is a subclass of `Exception` (what `except Exception`
catches).  `KeyboardInterrupt` and `SystemExit` derive from `BaseException`
but not from `Exception`. -/
def isSubclassOfException : PyClass → Bool
  | PyClass.fileNotFoundError => true
  | PyClass.oSError => true
  | PyClass.keyboardInterrupt => false
  | PyClass.systemExit => false

/-- A raised Python exception: its class and message. -/
structure PyExc where
  cls : PyClass
  msg : String
deriving DecidableEq

/-- Filesystem state seen by the cleanup cell.  `mastExists` is whether
`stis_data/mastDownload/HST/` exists; `obsDirs` maps each obs_id sub-folder
to its FITS files; `stisData` is the content of `stis_data`; a file listed in
`locked` makes `shutil.move` raise an `OSError` (e.g. a permission or
cross-device failure). -/
structure FS where
  mastExists : Bool
  obsDirs : List (String × List String)
  stisData : List String
  locked : List String

/-- The inner move loops: move each FITS file into `stis_data`, stopping with
an `OSError` at the first locked file (the partially updated directory is
kept, as in Python). -/
def moveAll (locked : List String) : List String → List String → List String × Option PyExc
  | stis, [] => (stis, none)
  | stis, f :: rest =>
    if locked.contains f then (stis, some ⟨PyClass.oSError, f⟩)
    else moveAll locked (stis ++ [f]) rest

/-- The body of the `try:` block: resulting filesystem, printed lines, and
the exception escaping the body, if any.  When `mastDownload/HST/` is absent
the body prints the diagnostic and then `os.listdir` raises
`FileNotFoundError`; otherwise all FITS files are moved (stopping at a locked
file) and on success the `mastDownload` tree is removed. -/
def cleanupBody (fs : FS) : FS × List String × Option PyExc :=
  if fs.mastExists then
    match moveAll fs.locked fs.stisData (fs.obsDirs.flatMap Prod.snd) with
    | (stis, some e) => ({ fs with stisData := stis }, [], some e)
    | (stis, none) =>
      ({ fs with mastExists := false, obsDirs := [], stisData := stis }, [], none)
  else
    (fs, ["Directory ./stis_data/mastDownload/HST/ doesn't exist."],
      some ⟨PyClass.fileNotFoundError,
        "[Errno 2] No such file or directory: ./stis_data/mastDownload/HST/"⟩)

/-- The whole cell: run the body under `try`, and let `except Exception`
catch exactly the exceptions whose class is a subclass of `Exception`,
printing a diagnostic; any other exception propagates. -/
def cleanupCell (fs : FS) : FS × List String × Option PyExc :=
  match cleanupBody fs with
  | (fs', out, none) => (fs', out, none)
  | (fs', out, some e) =>
    if isSubclassOfException e.cls then
      (fs', out ++ ["An error occurred: " ++ e.msg], none)
    else (fs', out, some e)

theorem moveAll_error_class (locked : List String) :
    ∀ pending stis stis' e, moveAll locked stis pending = (stis', some e) →
      e.cls = PyClass.oSError := by
  intro pending
  induction pending with
  | nil => intro stis stis' e h; simp [moveAll] at h
  | cons f rest ih =>
    intro stis stis' e h
    rw [moveAll] at h
    by_cases hf : locked.contains f
    · simp only [hf, if_true, Prod.mk.injEq, Option.some.injEq] at h
      rw [← h.2]
    · simp only [hf, if_false] at h
      exact ih _ _ _ h

theorem cleanupBody_exception_catchable (fs : FS) :
    ∀ fs' out e, cleanupBody fs = (fs', out, some e) →
      isSubclassOfException e.cls = true := by
  intro fs' out e h
  rw [cleanupBody] at h
  by_cases hm : fs.mastExists = true
  · rw [if_pos hm] at h
    rcases hmv : moveAll fs.locked fs.stisData (fs.obsDirs.flatMap Prod.snd) with
      ⟨stis, oe⟩
    rw [hmv] at h
    cases oe with
    | none => simp at h
    | some e' =>
      simp only [Prod.mk.injEq, Option.some.injEq] at h
      rw [← h.2.2, moveAll_error_class fs.locked _ _ _ _ hmv]
      rfl
  · rw [if_neg hm] at h
    simp only [Prod.mk.injEq, Option.some.injEq] at h
    rw [← h.2.2]
    rfl

/-- C3: for every input filesystem state, the cleanup cell terminates with no
exception escaping: every exception the body can raise is caught by the
`except Exception` clause, which only prints a diagnostic message. -/
theorem cleanup_cell_no_exception_escapes (fs : FS) :
    (cleanupCell fs).2.2 = none := by
  rw [cleanupCell]
  rcases hb : cleanupBody fs with ⟨fs', out, oe⟩
  cases oe with
  | none => rfl
  | some e =>
    have := cleanupBody_exception_catchable fs _ _ _ hb
    simp [this]

/-! ## Persistent files written by the repository (claim C2)

An enumeration of every persistent-file write performed (or directly
parameterized) by code cells of the repository's notebooks.  Downloads and
outputs produced autonomously by the external tools themselves (calacs
products, swrapper co-adds, TweakReg match/residual files) are the external
tools' own writes; the `shift_drz.txt` shift file is included because the
notebook explicitly requests it via `outshifts=`, and the reference-atlas
tar is included because `!curl -O` stores it.
-/

/-- File formats of persistent files encountered in the notebooks. -/
inductive FileFormat where
  | fits
  | gif
  | png
  | asciiTable
  | text
  | tar
deriving DecidableEq

/-- One persistent-file write by a notebook code cell. -/
structure WriteOp where
  notebook : String
  path : String
  format : FileFormat
deriving DecidableEq

/-- Every persistent-file write in the repository's code cells. -/
def persistentWrites : List WriteOp :=
  [⟨"HASP/FluxScaling", "stis_products/flux_vs_wavelength.png", FileFormat.png⟩,
   ⟨"HASP/FluxScaling", "stis_products/snr_vs_wavelength_prescaled.png", FileFormat.png⟩,
   ⟨"HASP/FluxScaling", "stis_scaled_data/o5jy03010_x1d.fits", FileFormat.fits⟩,
   ⟨"HASP/FluxScaling", "stis_scaled_data/o5jy03020_x1d.fits", FileFormat.fits⟩,
   ⟨"HASP/FluxScaling", "stis_scaled_data/o5jy03030_x1d.fits", FileFormat.fits⟩,
   ⟨"HASP/FluxScaling", "stis_scaled_data/scaled_flux_vs_wavelength.png", FileFormat.png⟩,
   ⟨"HASP/FluxScaling", "stis_scaled_products/scaled_rel_snr_vs_wavelength.png",
     FileFormat.png⟩,
   ⟨"DrizzlePac/sky_matching", "gaia_no_pm.cat", FileFormat.asciiTable⟩,
   ⟨"DrizzlePac/sky_matching", "gaia_pm.cat", FileFormat.asciiTable⟩,
   ⟨"DrizzlePac/sky_matching", "shift_drz.txt", FileFormat.text⟩,
   ⟨"WFC3/filter_transformations",
     "hlsp_reference-atlases_hst_multi_everything_multi_v11_sed.tar", FileFormat.tar⟩,
   ⟨"WFC3/synthetic_photometry",
     "hlsp_reference-atlases_hst_multi_everything_multi_v11_sed.tar", FileFormat.tar⟩,
   ⟨"ACS/acs_reduction", "j9l960010_asn.fits (MEMTYPE filter, mode=update)",
     FileFormat.fits⟩,
   ⟨"ACS/acs_reduction", "*_raw.fits (fits.setval PCTECORR)", FileFormat.fits⟩]

/-- The formats the claim allows: FITS images/tables, GIFs, PNGs. -/
def thirdPartyImageFormats : List FileFormat :=
  [FileFormat.fits, FileFormat.gif, FileFormat.png]

/-- C2 counterexample: the sky-matching notebook writes the Gaia catalog
`gaia_no_pm.cat` in `ascii.commented_header` format, which is not a FITS,
GIF, or PNG, so not every persistent file is one of those three formats. -/
theorem repo_writes_formats_counterexample :
    (⟨"DrizzlePac/sky_matching", "gaia_no_pm.cat", FileFormat.asciiTable⟩ : WriteOp)
      ∈ persistentWrites
    ∧ thirdPartyImageFormats.contains FileFormat.asciiTable = false
    ∧ persistentWrites.all
        (fun w => thirdPartyImageFormats.contains w.format) = false := by
  refine ⟨by decide, by decide, by decide⟩

/-- The amended format list: the claim's three formats together with the
ASCII catalogs, the text shift file, and the downloaded tar archive. -/
def amendedFormats : List FileFormat :=
  [FileFormat.fits, FileFormat.gif, FileFormat.png, FileFormat.asciiTable,
   FileFormat.text, FileFormat.tar]

/-- C2 amended: every persistent file produced by the repository's code is a
FITS image/table, a GIF, a PNG, an ASCII catalog/table, a plain-text shift
file, or the downloaded reference-atlas tar archive. -/
theorem repo_writes_formats_amended :
    persistentWrites.all (fun w => amendedFormats.contains w.format) = true := by
  decide

/-! ## FITS keyword accesses (claim C5)

An enumeration of the repository's accesses to FITS header keywords and
table columns that include the keywords `MDRIZSKY`, `WCSNAME`, and `GSFAIL`
named by the spec, plus the neighbouring accesses in the same cells (and the
repository's one keyword write, `PCTECORR`, for contrast).  The `AstroDrizzle`
and `TweakReg` library calls update keywords themselves, but those are the
external tools' writes, not accesses performed by this repository's code.
-/

/-- Whether an access reads or writes the keyword/column. -/
inductive AccessKind where
  | read
  | write
deriving DecidableEq

/-- One access to a FITS keyword or column by a notebook code cell. -/
structure KeywordAccess where
  notebook : String
  context : String
  keyword : String
  kind : AccessKind
deriving DecidableEq

/-- The keyword/column accesses in the notebooks' code cells. -/
def fitsKeywordAccesses : List KeywordAccess :=
  [⟨"DrizzlePac/sky_matching", "wcstable cell: hdr1[kw] for kw in ext_1_kws",
     "WCSNAME", AccessKind.read⟩,
   ⟨"DrizzlePac/sky_matching", "wcstable cell: hdr1[kw] for kw in ext_1_kws",
     "NMATCHES", AccessKind.read⟩,
   ⟨"DrizzlePac/sky_matching", "wcstable cell: hdr1[kw] for kw in ext_1_kws",
     "RMS_RA", AccessKind.read⟩,
   ⟨"DrizzlePac/sky_matching", "wcstable cell: hdr1[kw] for kw in ext_1_kws",
     "RMS_DEC", AccessKind.read⟩,
   ⟨"DrizzlePac/sky_matching", "tweakback loop: hdu[1].header['WCSNAME']",
     "WCSNAME", AccessKind.read⟩,
   ⟨"DrizzlePac/sky_matching", "mdrizsky_val cell: fits.getdata(...)['rootname']",
     "ROOTNAME", AccessKind.read⟩,
   ⟨"DrizzlePac/sky_matching",
     "mdrizsky_val cell: fits.getdata('f160w_localmin_drz_sci.fits', 1)['mdrizsky']",
     "MDRIZSKY", AccessKind.read⟩,
   ⟨"DrizzlePac/sky_matching",
     "mdrizsky_val cell: fits.getdata('f160w_globalmin_drz_sci.fits', 1)['mdrizsky']",
     "MDRIZSKY", AccessKind.read⟩,
   ⟨"DrizzlePac/sky_matching",
     "mdrizsky_val cell: fits.getdata('f160w_globalmin_match_drz_sci.fits', 1)['mdrizsky']",
     "MDRIZSKY", AccessKind.read⟩,
   ⟨"DrizzlePac/sky_matching",
     "mdrizsky_val cell: fits.getdata('f160w_match_drz_sci.fits', 1)['mdrizsky']",
     "MDRIZSKY", AccessKind.read⟩,
   ⟨"WFC3/guide_star_failure", "fits.getheader(jif_file, 0)['T_GSFAIL*']",
     "T_GSFAIL", AccessKind.read⟩,
   ⟨"WFC3/guide_star_failure", "keywords loop: header.get('GSFAIL*')",
     "GSFAIL", AccessKind.read⟩,
   ⟨"ACS/acs_reduction", "fits.setval(file, 'PCTECORR', value=value)",
     "PCTECORR", AccessKind.write⟩]

/-- The keywords the spec names as consumed read-only. -/
def readOnlyKeywords : List String := ["MDRIZSKY", "WCSNAME", "GSFAIL"]

/-- C5: every access to `MDRIZSKY`, `WCSNAME`, or `GSFAIL` in the
repository's code is a read; no operation assigns to or modifies these
keywords in any FITS file. -/
theorem fits_keyword_accesses_read_only :
    fitsKeywordAccesses.all
      (fun a => !(readOnlyKeywords.contains a.keyword)
        || decide (a.kind = AccessKind.read)) = true := by
  decide

/-! ## External command-line tool invocations (claim C6)

Source invocations:
* `!swrapper -i ./stis_data -o ./stis_products` and
  `!swrapper -i ./stis_scaled_data -o ./stis_scaled_products`
  (HASP FluxScaling notebook; the Setup notebook shows the same form in a
  markdown code block, which is documentation, not an invocation);
* `!calacs.e j9l960010_asn.fits` (ACS reduction notebook);
* `!crds bestrefs --files {file} --sync-references=1 --update-bestrefs`
  in a loop over `raw_files` (ACS reduction notebook).
-/

/-- A parsed `swrapper` invocation: the optional flags and their values. -/
structure SwrapperCall where
  inputDir : Option String
  outputDir : Option String
  threshold : Option String
  snrmax : Option String
  noKeywordFiltering : Bool
deriving DecidableEq

/-- The `swrapper` invocations appearing in the notebooks' code cells. -/
def swrapperCalls : List SwrapperCall :=
  [⟨some "./stis_data", some "./stis_products", none, none, false⟩,
   ⟨some "./stis_scaled_data", some "./stis_scaled_products", none, none, false⟩]

/-- The spec interface `swrapper -i <input_dir> -o <output_dir> [-t] [-s] [-k]`:
`-i` and `-o` must be supplied; `-t`, `-s`, `-k` are optional. -/
def swrapperMatchesSpec (c : SwrapperCall) : Bool :=
  c.inputDir.isSome && c.outputDir.isSome

/-- The arguments of the `calacs.e` invocations in the notebooks. -/
def calacsCalls : List String := ["j9l960010_asn.fits"]

/-- Model of Python `str.endswith`. -/
def pyEndswith (s pat : String) : Bool := decide (pat.toList <:+ s.toList)

/-- The spec interface `calacs.e <asn_file>`: the argument is an association
file (`*_asn.fits`). -/
def calacsMatchesSpec (arg : String) : Bool := pyEndswith arg "_asn.fits"

/-- The token lists of the `crds bestrefs` invocations in the notebooks;
`{file}` stands for the loop variable interpolated per raw file. -/
def crdsBestrefsCalls : List (List String) :=
  [["crds", "bestrefs", "--files", "{file}", "--sync-references=1",
    "--update-bestrefs"]]

/-- The spec interface
`crds bestrefs --files <file> --sync-references=1 --update-bestrefs`. -/
def crdsMatchesSpec : List String → Bool
  | ["crds", "bestrefs", "--files", _, "--sync-references=1",
      "--update-bestrefs"] => true
  | _ => false

/-- C6: every invocation of the external command-line tools in the notebooks
matches the interface the spec gives: each `swrapper` call supplies `-i` and
`-o` (with `-t`, `-s`, `-k` absent), `calacs.e` is called with an association
file, and `crds bestrefs` is called with exactly the spec's flags. -/
theorem tool_invocations_match_spec :
    swrapperCalls.all swrapperMatchesSpec = true
    ∧ calacsCalls.all calacsMatchesSpec = true
    ∧ crdsBestrefsCalls.all crdsMatchesSpec = true := by
  refine ⟨by decide, by decide, by decide⟩

/-! ## Cell sequence of the flux-scaling notebook (claim C8)

The notebook's code cells, in execution order, each classified by the spec's
phases: archive download (a), external-tool invocation (b), loading/plotting
of results (c), or setup/bookkeeping (unclassified).
-/

/-- The phase a notebook code cell belongs to. -/
inductive NotebookPhase where
  | download
  | process
  | plot
  | setup
deriving DecidableEq

/-- The rank of the claimed global phase order `download < process < plot`;
setup/bookkeeping cells are outside the claimed ordering. -/
def phaseRank : NotebookPhase → Option ℕ
  | NotebookPhase.download => some 0
  | NotebookPhase.process => some 1
  | NotebookPhase.plot => some 2
  | NotebookPhase.setup => none

/-- The code cells of the HASP flux-scaling notebook, in order. -/
def haspFluxScalingCells : List (String × NotebookPhase) :=
  [("imports", NotebookPhase.setup),
   ("create data/product directories", NotebookPhase.setup),
   ("Observations.query_criteria", NotebookPhase.download),
   ("get_product_list and download_products", NotebookPhase.download),
   ("mastDownload cleanup try/except", NotebookPhase.setup),
   ("swrapper -i ./stis_data -o ./stis_products", NotebookPhase.process),
   ("coadd filename assignment", NotebookPhase.setup),
   ("plot flux vs wavelength of inputs and co-add", NotebookPhase.plot),
   ("plot SNR vs wavelength of co-add", NotebookPhase.plot),
   ("median fluxes of the three inputs", NotebookPhase.setup),
   ("scale_factor assignment", NotebookPhase.setup),
   ("rescale loop, writeto, plot scaled flux", NotebookPhase.plot),
   ("swrapper -i ./stis_scaled_data -o ./stis_scaled_products",
     NotebookPhase.process),
   ("plot scaled/original SNR ratio", NotebookPhase.plot)]

/-- The ranks of the phase-classified cells, in execution order. -/
def rankedPhases (cells : List (String × NotebookPhase)) : List ℕ :=
  (cells.map Prod.snd).filterMap phaseRank

/-- The claimed property: no step of a later phase precedes a step of an
earlier phase, i.e. the ranks are globally nondecreasing. -/
def phasesGloballyOrdered (cells : List (String × NotebookPhase)) : Prop :=
  List.Pairwise (· ≤ ·) (rankedPhases cells)

/-- C8 counterexample: in the flux-scaling notebook, the plotting cell at
position 7 precedes the second `swrapper` invocation at position 12, so a
later-phase (plot) step precedes an earlier-phase (process) step and the
phases are not globally ordered. -/
theorem hasp_phase_order_counterexample :
    (haspFluxScalingCells.getD 7 ("", NotebookPhase.setup)).2 = NotebookPhase.plot
    ∧ (haspFluxScalingCells.getD 12 ("", NotebookPhase.setup)).2
        = NotebookPhase.process
    ∧ ¬ phasesGloballyOrdered haspFluxScalingCells := by
  refine ⟨by decide, by decide, ?_⟩
  unfold phasesGloballyOrdered
  decide

/-- Downloads precede everything that follows in the phase ordering: a
download rank never occurs after a non-download rank. -/
def downloadsPrecedeRest (cells : List (String × NotebookPhase)) : Prop :=
  List.Pairwise (fun a b => b = 0 → a = 0) (rankedPhases cells)

def plotsAfterProcessAux : Bool → List ℕ → Bool
  | _, [] => true
  | seen, r :: rest =>
    if r = 2 && !seen then false
    else plotsAfterProcessAux (seen || r == 1) rest

/-- Every plotting step is preceded by some external-tool invocation. -/
def plotsPrecededByProcess (cells : List (String × NotebookPhase)) : Bool :=
  plotsAfterProcessAux false (rankedPhases cells)

/-- C8 amended: the flux-scaling notebook is a single sequential cell list in
which every archive-download step precedes every external-tool invocation and
every plotting step, and every plotting step is preceded by a tool
invocation; but phases are not globally ordered, because the co-add tool is
re-invoked after plotting cells. -/
theorem hasp_notebook_sequential_phases :
    downloadsPrecedeRest haspFluxScalingCells
    ∧ plotsPrecededByProcess haspFluxScalingCells = true := by
  refine ⟨?_, by decide⟩
  unfold downloadsPrecedeRest
  decide

/-! ## Guarded tar extraction (synphot notebooks, claim C9)

Source (appearing identically in the filter-transformations and
synthetic-photometry notebooks):
```
extract_to = 'hlsp_reference-atlases_hst_multi_everything_multi_v11_sed'
abs_extract_to = os.path.abspath(extract_to)
with tarfile.open(tar_archive, 'r') as tar:
    for member in tar.getmembers():
        member_path = os.path.abspath(os.path.join(abs_extract_to, member.name))
        if member_path.startswith(abs_extract_to):
            tar.extract(member, path=extract_to)
        else:
            print(f"Skipped {member.name} due to potential security risk")
```
Absolute paths are modelled as lists of components (lists of characters);
`os.path.abspath` resolves `.`, `..`, and empty components lexically, and
`str.startswith` compares the rendered path strings character by character.
-/

/-- Source: `extract_to = 'hlsp_reference-atlases_hst_multi_everything_multi_v11_sed'`. -/
def extract_to : String := "hlsp_reference-atlases_hst_multi_everything_multi_v11_sed"

/-- Lexical path normalization as in `os.path.abspath`/`posixpath.normpath`:
drop empty and `.` components, let `..` pop the previous component (or stay
at the root).  The first argument is the reversed stack of kept components. -/
def normalizeAux : List (List Char) → List (List Char) → List (List Char)
  | stack, [] => stack.reverse
  | stack, c :: rest =>
    if c = [] ∨ c = ['.'] then normalizeAux stack rest
    else if c = ['.', '.'] then normalizeAux (stack.drop 1) rest
    else normalizeAux (c :: stack) rest

/-- Render an absolute path from its components (`/a/b/c`). -/
def renderPath (p : List (List Char)) : List Char :=
  p.flatMap (fun c => '/' :: c)

/-- The components of
`os.path.abspath(os.path.join(abs_extract_to, member.name))` for a process
whose working directory has components `cwd`: an absolute member name
discards the left operand of `join`, otherwise the name is resolved under
`cwd ++ [extract_to]`. -/
def memberComponents (cwd : List (List Char)) (name : List Char) : List (List Char) :=
  if name.head? = some '/' then normalizeAux [] (splitOnChar '/' name)
  else normalizeAux [] (cwd ++ [extract_to.toList] ++ splitOnChar '/' name)

/-- The rendered string `member_path` of the source. -/
def member_path (cwd : List (List Char)) (name : List Char) : List Char :=
  renderPath (memberComponents cwd name)

/-- The rendered string `abs_extract_to` of the source. -/
def abs_extract_to_path (cwd : List (List Char)) : List Char :=
  renderPath (cwd ++ [extract_to.toList])

/-- Source guard: `member_path.startswith(abs_extract_to)`. -/
def extractGuard (cwd : List (List Char)) (name : List Char) : Bool :=
  (abs_extract_to_path cwd).isPrefixOf (member_path cwd name)

/-- The members the loop extracts: exactly those passing the guard; the rest
are skipped with a printed message. -/
def extractedMembers (cwd : List (List Char)) (members : List (List Char)) :
    List (List Char) :=
  members.filter (fun m => extractGuard cwd m)

/-- Whether the member's resolved path lies inside the extraction directory:
the extraction directory's components are a component-wise prefix of the
resolved path's components. -/
def insideExtractDir (cwd : List (List Char)) (name : List Char) : Bool :=
  (cwd ++ [extract_to.toList]).isPrefixOf (memberComponents cwd name)

/-- A concrete working directory `/home/user` for the counterexample. -/
def cwdExample : List (List Char) := ["home".toList, "user".toList]

/-- A member name whose resolved path escapes the extraction directory into
the sibling directory `<extract_to>x` yet passes the string-prefix guard. -/
def evilMemberName : List Char :=
  ("../" ++ extract_to ++ "x/evil").toList

/-- A well-behaved member name, resolved inside the extraction directory. -/
def goodMemberName : List Char := "grp/redcat/trds/file.fits".toList

/-- C9 counterexample: the member name
`../hlsp_reference-atlases_hst_multi_everything_multi_v11_sedx/evil` resolves
outside the extraction directory (into a sibling whose name extends the
directory's name), yet its resolved path starts with the absolute extraction
directory path as a string, so the guard passes and the member is extracted
outside the extraction directory. -/
theorem tar_guard_counterexample :
    extractGuard cwdExample evilMemberName = true
    ∧ insideExtractDir cwdExample evilMemberName = false
    ∧ extractedMembers cwdExample [evilMemberName] = [evilMemberName] := by
  refine ⟨by decide, by decide, by decide⟩

theorem renderPath_append (p q : List (List Char)) :
    renderPath (p ++ q) = renderPath p ++ renderPath q := by
  simp [renderPath]

/-- C9 amended: a tar member is extracted if and only if the rendered
absolute resolved path of its destination starts (as a string) with the
rendered absolute extraction-directory path — every member failing that
string-prefix test is skipped — and every member resolved inside the
extraction directory passes the test; but the test does not guarantee that
extraction stays inside the extraction directory (see the counterexample). -/
theorem tar_extraction_guard (cwd : List (List Char)) (members : List (List Char)) :
    (∀ m, m ∈ extractedMembers cwd members
      ↔ (m ∈ members ∧ extractGuard cwd m = true))
    ∧ (∀ m : List Char, insideExtractDir cwd m = true →
        extractGuard cwd m = true) := by
  constructor
  · intro m
    exact List.mem_filter
  · intro m hin
    rw [insideExtractDir, List.isPrefixOf_iff_prefix] at hin
    obtain ⟨t, ht⟩ := hin
    rw [extractGuard, List.isPrefixOf_iff_prefix, member_path, ← ht,
      renderPath_append]
    exact List.prefix_append _ _

/-- C9 witness: the amended guard theorem instantiated at the concrete
working directory `/home/user` and the in-tree member
`grp/redcat/trds/file.fits`. -/
theorem tar_extraction_guard_witness :
    (goodMemberName ∈ extractedMembers cwdExample [goodMemberName]
      ↔ (goodMemberName ∈ [goodMemberName]
          ∧ extractGuard cwdExample goodMemberName = true))
    ∧ insideExtractDir cwdExample goodMemberName = true
    ∧ extractGuard cwdExample goodMemberName = true :=
  ⟨(tar_extraction_guard cwdExample [goodMemberName]).1 goodMemberName,
    by decide,
    (tar_extraction_guard cwdExample [goodMemberName]).2 goodMemberName (by decide)⟩
